import Mathlib

/-!
Shallow embedding of the DetoxBuddy scheduling and session-lifecycle engine.

Time is modelled in whole seconds (a monotone clock); Python duration
computations of the form int((b - a).total_seconds() / 60) become
(b - a) / 60 on natural numbers.  Database tables become lists of records,
the SQLAlchemy commit of a mutated row becomes an id-keyed map update, and
the APScheduler job store becomes an explicit list of jobs.  Fallible
operations return Option, mirroring functions that return None on refusal.
-/

namespace DetoxBuddy

/-! Focus session data model, from database/models/focus_session.py. -/

inductive FocusSessionStatus
  | planned
  | active
  | paused
  | completed
  | cancelled
deriving DecidableEq

inductive FocusSessionType
  | focus
  | short_break
  | long_break
deriving DecidableEq

structure FocusSession where
  id : Nat
  user_id : Nat
  session_type : FocusSessionType
  status : FocusSessionStatus
  planned_duration : Nat
  actual_duration : Option Nat
  paused_duration : Nat
  planned_start : Nat
  actual_start : Option Nat
  actual_end : Option Nat
  last_pause_start : Option Nat
  completion_rate : Option ℚ
  auto_start_next : Bool
  updated_at : Nat
deriving DecidableEq

/-- FocusSession.calculate_completion_rate: returns 0 when actual_duration is
falsy (None or 0) or planned_duration is falsy (0), else
min(100, actual / planned * 100). -/
def calculateCompletionRate (s : FocusSession) : ℚ :=
  match s.actual_duration with
  | none => 0
  | some ad =>
      if ad = 0 ∨ s.planned_duration = 0 then 0
      else min 100 ((ad : ℚ) / (s.planned_duration : ℚ) * 100)

/-- FocusSession.effective_duration_minutes: when actual_duration is truthy
(set and nonzero) it returns actual_duration - paused_duration, otherwise
it falls back to planned_duration.  The subtraction is a Python int
subtraction, hence the Int codomain. -/
def effectiveDurationMinutes (s : FocusSession) : Int :=
  match s.actual_duration with
  | none => (s.planned_duration : Int)
  | some ad =>
      if ad = 0 then (s.planned_duration : Int)
      else (ad : Int) - (s.paused_duration : Int)

/-! CRUD operations on a single fetched session record, from
database/crud/focus_session.py.  Each returns none exactly when the Python
method returns None without modifying the row. -/

/-- CRUDFocusSession.start_session on a fetched record. -/
def startSessionCrud (now : Nat) (s : FocusSession) : Option FocusSession :=
  if s.status = FocusSessionStatus.planned then
    some { s with
      status := FocusSessionStatus.active
      actual_start := some now
      updated_at := now }
  else none

/-- CRUDFocusSession.pause_session on a fetched record. -/
def pauseSessionCrud (now : Nat) (s : FocusSession) : Option FocusSession :=
  if s.status = FocusSessionStatus.active then
    some { s with
      status := FocusSessionStatus.paused
      last_pause_start := some now
      updated_at := now }
  else none

/-- CRUDFocusSession.resume_session on a fetched record: adds the elapsed
pause (whole minutes) to paused_duration, clears last_pause_start. -/
def resumeSessionCrud (now : Nat) (s : FocusSession) : Option FocusSession :=
  if s.status = FocusSessionStatus.paused then
    let s1 :=
      match s.last_pause_start with
      | some lp => { s with paused_duration := s.paused_duration + (now - lp) / 60 }
      | none => s
    some { s1 with
      status := FocusSessionStatus.active
      last_pause_start := none
      updated_at := now }
  else none

/-- CRUDFocusSession.complete_session on a fetched record: sets actual_end,
computes actual_duration as the whole-minute wall-clock span when
actual_start is set, and stores the completion rate.  paused_duration and
last_pause_start are not touched. -/
def completeSessionCrud (now : Nat) (s : FocusSession) : Option FocusSession :=
  if s.status = FocusSessionStatus.active ∨ s.status = FocusSessionStatus.paused then
    let s1 := { s with
      status := FocusSessionStatus.completed
      actual_end := some now }
    let s2 :=
      match s.actual_start with
      | some st => { s1 with actual_duration := some ((now - st) / 60) }
      | none => s1
    some { s2 with
      completion_rate := some (calculateCompletionRate s2)
      updated_at := now }
  else none

/-- CRUDFocusSession.cancel_session on a fetched record: refused only for
COMPLETED sessions; otherwise sets status CANCELLED and overwrites
actual_end and updated_at. -/
def cancelSessionCrud (now : Nat) (s : FocusSession) : Option FocusSession :=
  if s.status = FocusSessionStatus.completed then none
  else
    some { s with
      status := FocusSessionStatus.cancelled
      actual_end := some now
      updated_at := now }

/-! The focus_sessions table and id-based access. -/

abbrev FocusDB := List FocusSession

/-- CRUDBase.get by primary key. -/
def getSessionById (db : FocusDB) (i : Nat) : Option FocusSession :=
  db.find? (fun s => s.id == i)

/-- CRUDFocusSession.get_active_session: first session of the user whose
status is ACTIVE or PAUSED. -/
def getActiveSession (db : FocusDB) (uid : Nat) : Option FocusSession :=
  db.find? (fun s =>
    s.user_id == uid &&
      (s.status == FocusSessionStatus.active || s.status == FocusSessionStatus.paused))

/-- Commit of a mutated row: replace the record with the same id. -/
def updateSession (db : FocusDB) (s : FocusSession) : FocusDB :=
  db.map (fun t => if t.id == s.id then s else t)

/-- Autoincrement primary key for a fresh row. -/
def nextId (db : FocusDB) : Nat :=
  db.foldr (fun s m => max s.id m) 0 + 1

/-- CRUDFocusSession.create_focus_session: a fresh PLANNED record. -/
def createFocusSession (now sid uid : Nat) (ty : FocusSessionType)
    (dur : Nat) (auto : Bool) : FocusSession :=
  { id := sid
    user_id := uid
    session_type := ty
    status := FocusSessionStatus.planned
    planned_duration := dur
    actual_duration := none
    paused_duration := 0
    planned_start := now
    actual_start := none
    actual_end := none
    last_pause_start := none
    completion_rate := none
    auto_start_next := auto
    updated_at := now }

/-! The FocusTimer engine, from core/focus_timer.py.  Its state is the
volatile active-session cache (user id keyed association list), the
focus_sessions table, and the APScheduler job list.  Job ids mirror the
f-string ids of the source. -/

/-- One value of the active_sessions dict: FocusTimer stores session id,
start time, planned duration, session type and a completed-in-cycle
counter for each user. -/
structure SessionInfo where
  session_id : Nat
  start_time : Nat
  duration_minutes : Nat
  session_type : FocusSessionType
  sessions_completed : Nat
deriving DecidableEq

inductive JobId
  | focusComplete (userId sessionId : Nat)
  | breakComplete (userId sessionId : Nat)
  | progress (userId sessionId minuteMark : Nat)
deriving DecidableEq

structure Job where
  jobId : JobId
  runDate : Nat
deriving DecidableEq

structure TimerState where
  active_sessions : List (Nat × SessionInfo)
  db : FocusDB
  jobs : List Job
deriving DecidableEq

/-- scheduler.add_job with replace_existing=True: any pending job with the
same id is replaced. -/
def addJob (jobs : List Job) (j : Job) : List Job :=
  jobs.filter (fun k => !(k.jobId == j.jobId)) ++ [j]

/-- scheduler.remove_job (a missing job is a no-op). -/
def removeJob (jobs : List Job) (i : JobId) : List Job :=
  jobs.filter (fun k => !(k.jobId == i))

/-- Python range(a, b, step) for positive step. -/
def pyRange (a b step : Nat) : List Nat :=
  List.range' a ((b - a + step - 1) / step) step

/-- FocusTimer._schedule_progress_notifications: a progress job every
5 minutes, for i in range(5, duration_minutes, 5). -/
def scheduleProgress (jobs : List Job) (now uid sid dur : Nat) : List Job :=
  (pyRange 5 dur 5).foldl
    (fun js i => addJob js { jobId := JobId.progress uid sid i, runDate := now + i * 60 })
    jobs

/-- FocusTimer._remove_progress_notifications: drops every progress job of
this user and session. -/
def removeProgress (jobs : List Job) (uid sid : Nat) : List Job :=
  jobs.filter (fun k =>
    match k.jobId with
    | JobId.progress u s _ => !(u == uid && s == sid)
    | _ => true)

def cacheLookup (c : List (Nat × SessionInfo)) (uid : Nat) : Option SessionInfo :=
  (c.find? (fun p => p.1 == uid)).map (fun p => p.2)

def cacheSet (c : List (Nat × SessionInfo)) (uid : Nat) (info : SessionInfo) :
    List (Nat × SessionInfo) :=
  c.filter (fun p => !(p.1 == uid)) ++ [(uid, info)]

def cacheDel (c : List (Nat × SessionInfo)) (uid : Nat) : List (Nat × SessionInfo) :=
  c.filter (fun p => !(p.1 == uid))

/-- Run date of a pending job, by job id. -/
def getJobDate (t : TimerState) (i : JobId) : Option Nat :=
  (t.jobs.find? (fun k => k.jobId == i)).map Job.runDate

/-- FocusTimer.sessions_before_long_break (default Pomodoro setting). -/
def sessionsBeforeLongBreak : Nat := 4

/-- FocusTimer.short_break_duration in minutes. -/
def shortBreakDuration : Nat := 5

/-- FocusTimer.long_break_duration in minutes. -/
def longBreakDuration : Nat := 15

/-- FocusTimer.start_focus_session: if the user already has an ACTIVE or
PAUSED session it is returned unchanged; otherwise a FOCUS session is
created and started, cached with a zero completed-in-cycle counter, and a
completion job plus progress jobs are scheduled at now + duration. -/
def startFocusSession (t : TimerState) (now uid dur : Nat) :
    Option FocusSession × TimerState :=
  match getActiveSession t.db uid with
  | some s => (some s, t)
  | none =>
    let sid := nextId t.db
    let created := createFocusSession now sid uid FocusSessionType.focus dur true
    let db1 := t.db ++ [created]
    match startSessionCrud now created with
    | none => (none, { t with db := db1 })
    | some s =>
      let db2 := updateSession db1 s
      let cache := cacheSet t.active_sessions uid
        { session_id := sid
          start_time := now
          duration_minutes := dur
          session_type := FocusSessionType.focus
          sessions_completed := 0 }
      let jobs1 := addJob t.jobs
        { jobId := JobId.focusComplete uid sid, runDate := now + dur * 60 }
      let jobs2 := scheduleProgress jobs1 now uid sid dur
      (some s, { active_sessions := cache, db := db2, jobs := jobs2 })

/-- FocusTimer.pause_session: gated on the cache entry; on success removes
the completion job and the progress jobs. -/
def pauseSessionTimer (t : TimerState) (now uid : Nat) : Bool × TimerState :=
  match cacheLookup t.active_sessions uid with
  | none => (false, t)
  | some info =>
    match (getSessionById t.db info.session_id).bind (pauseSessionCrud now) with
    | none => (false, t)
    | some s =>
      let db1 := updateSession t.db s
      let jobs1 := removeJob t.jobs (JobId.focusComplete uid info.session_id)
      let jobs2 := removeProgress jobs1 uid info.session_id
      (true, { t with db := db1, jobs := jobs2 })

/-- FocusTimer.resume_session: gated on the cache entry; recomputes the
remaining minutes as max(0, duration_minutes - wall-clock minutes since the
cached start_time) and, when positive, reschedules the completion job for
that many minutes out together with fresh progress jobs. -/
def resumeSessionTimer (t : TimerState) (now uid : Nat) : Bool × TimerState :=
  match cacheLookup t.active_sessions uid with
  | none => (false, t)
  | some info =>
    match (getSessionById t.db info.session_id).bind (resumeSessionCrud now) with
    | none => (false, t)
    | some s =>
      let db1 := updateSession t.db s
      let remaining := info.duration_minutes - (now - info.start_time) / 60
      let jobs1 :=
        if 0 < remaining then
          scheduleProgress
            (addJob t.jobs
              { jobId := JobId.focusComplete uid info.session_id
                runDate := now + remaining * 60 })
            now uid info.session_id remaining
        else t.jobs
      (true, { t with db := db1, jobs := jobs1 })

/-- FocusTimer.cancel_session: gated on the cache entry; on success removes
the jobs and drops the cache entry. -/
def cancelSessionTimer (t : TimerState) (now uid : Nat) : Bool × TimerState :=
  match cacheLookup t.active_sessions uid with
  | none => (false, t)
  | some info =>
    match (getSessionById t.db info.session_id).bind (cancelSessionCrud now) with
    | none => (false, t)
    | some s =>
      let db1 := updateSession t.db s
      let jobs1 := removeJob t.jobs (JobId.focusComplete uid info.session_id)
      let jobs2 := removeProgress jobs1 uid info.session_id
      (true, { active_sessions := cacheDel t.active_sessions uid, db := db1, jobs := jobs2 })

/-- FocusTimer._start_short_break and _start_long_break: create and start a
break session, cache it with a zero counter and schedule its completion
job. -/
def startBreak (t : TimerState) (now uid : Nat) (ty : FocusSessionType)
    (dur : Nat) : TimerState :=
  let sid := nextId t.db
  let created := createFocusSession now sid uid ty dur true
  let db1 := t.db ++ [created]
  match startSessionCrud now created with
  | none => { t with db := db1 }
  | some s =>
    { active_sessions := cacheSet t.active_sessions uid
        { session_id := sid
          start_time := now
          duration_minutes := dur
          session_type := ty
          sessions_completed := 0 }
      db := updateSession db1 s
      jobs := addJob t.jobs { jobId := JobId.breakComplete uid sid, runDate := now + dur * 60 } }

/-- FocusTimer._complete_focus_session: completes the cached session,
increments the cached completed-in-cycle counter, starts a LONG_BREAK when
the counter is a multiple of sessions_before_long_break and a SHORT_BREAK
otherwise, and finally deletes the cache entry of the user. -/
def completeFocusSession (t : TimerState) (now uid : Nat) : TimerState :=
  match cacheLookup t.active_sessions uid with
  | none => t
  | some info =>
    match (getSessionById t.db info.session_id).bind (completeSessionCrud now) with
    | none => t
    | some s =>
      let info1 := { info with sessions_completed := info.sessions_completed + 1 }
      let t1 : TimerState :=
        { active_sessions := cacheSet t.active_sessions uid info1
          db := updateSession t.db s
          jobs := t.jobs }
      let t2 :=
        if info1.sessions_completed % sessionsBeforeLongBreak = 0 then
          startBreak t1 now uid FocusSessionType.long_break longBreakDuration
        else
          startBreak t1 now uid FocusSessionType.short_break shortBreakDuration
      { t2 with active_sessions := cacheDel t2.active_sessions uid }

/-- FocusTimer._complete_break_session: completes the cached session and
deletes the cache entry. -/
def completeBreakSession (t : TimerState) (now uid : Nat) : TimerState :=
  match cacheLookup t.active_sessions uid with
  | none => t
  | some info =>
    match (getSessionById t.db info.session_id).bind (completeSessionCrud now) with
    | none => t
    | some s =>
      { t with
        db := updateSession t.db s
        active_sessions := cacheDel t.active_sessions uid }

/-- States of the focus engine reachable from a fresh instance by the
lifecycle operations of FocusTimer. -/
inductive Reachable : TimerState → Prop
  | init : Reachable { active_sessions := [], db := [], jobs := [] }
  | start (t : TimerState) (now uid dur : Nat) (h : Reachable t) :
      Reachable (startFocusSession t now uid dur).2
  | pause (t : TimerState) (now uid : Nat) (h : Reachable t) :
      Reachable (pauseSessionTimer t now uid).2
  | resume (t : TimerState) (now uid : Nat) (h : Reachable t) :
      Reachable (resumeSessionTimer t now uid).2
  | cancel (t : TimerState) (now uid : Nat) (h : Reachable t) :
      Reachable (cancelSessionTimer t now uid).2
  | completeFocus (t : TimerState) (now uid : Nat) (h : Reachable t) :
      Reachable (completeFocusSession t now uid)
  | completeBreak (t : TimerState) (now uid : Nat) (h : Reachable t) :
      Reachable (completeBreakSession t now uid)

/-- Every entry of the active-session cache carries a zero
completed-in-cycle counter: the only writers of the cache
(start_focus_session, _start_short_break, _start_long_break and the startup
restore) all initialise sessions_completed to 0 and the entry is deleted at
completion. -/
def cacheCountersZero (t : TimerState) : Prop :=
  ∀ p ∈ t.active_sessions, p.2.sessions_completed = 0

/-- No LONG_BREAK session exists in the focus_sessions table. -/
def noLongBreak (t : TimerState) : Prop :=
  ∀ s ∈ t.db, s.session_type ≠ FocusSessionType.long_break

/-- Decidable form of noLongBreak, over the stored table. -/
def noLongBreakBool (t : TimerState) : Bool :=
  t.db.all (fun s => !(s.session_type == FocusSessionType.long_break))

/-! Reminder data model, from database/models/reminder.py. -/

inductive ReminderStatus
  | active
  | sent
  | cancelled
  | expired
  | failed
deriving DecidableEq

inductive ReminderType
  | daily
  | weekly
  | custom
  | detox_reminder
  | focus_reminder
  | break_reminder
  | quiet_hours
deriving DecidableEq

structure Reminder where
  id : Nat
  user_id : Nat
  title : String
  message : Option String
  reminder_type : ReminderType
  status : ReminderStatus
  scheduled_time : Nat
  reminder_time : Option Nat
  repeat_days : Option String
  repeat_interval : Option Nat
  sent_at : Option Nat
  sent_count : Nat
  failed_at : Option Nat
  failed_count : Nat
  max_send_count : Option Nat
  is_recurring : Bool
  is_enabled : Bool
  priority : Nat
  expires_at : Option Nat
deriving DecidableEq

/-- Reminder.is_active: status ACTIVE and enabled. -/
def Reminder.isActiveProp (r : Reminder) : Bool :=
  r.status == ReminderStatus.active && r.is_enabled

/-- Python truthiness of the optional repeat_interval column: None and 0 are
falsy. -/
def truthyInterval (o : Option Nat) : Bool :=
  match o with
  | some iv => !(iv == 0)
  | none => false

abbrev ReminderDB := List Reminder

def getReminder (db : ReminderDB) (i : Nat) : Option Reminder :=
  db.find? (fun r => r.id == i)

def updateReminder (db : ReminderDB) (r : Reminder) : ReminderDB :=
  db.map (fun x => if x.id == r.id then r else x)

def nextReminderId (db : ReminderDB) : Nat :=
  db.foldr (fun r m => max r.id m) 0 + 1

/-- CRUDReminder.mark_as_sent. -/
def markAsSent (now : Nat) (r : Reminder) : Reminder :=
  { r with
    status := ReminderStatus.sent
    sent_at := some now
    sent_count := r.sent_count + 1 }

/-- CRUDReminder.mark_as_failed. -/
def markAsFailed (now : Nat) (r : Reminder) : Reminder :=
  { r with
    status := ReminderStatus.failed
    failed_at := some now
    failed_count := r.failed_count + 1 }

/-! The ReminderScheduler (APScheduler path), from
core/reminder_scheduler.py.  Its state is the reminders table plus the set
of reminder ids that have a pending APScheduler job.  Delivery is the
external notifier: userOk models a resolvable user with a telegram id,
deliveryOk models a send that does not raise. -/

structure SchedulerState where
  db : ReminderDB
  jobs : List Nat
deriving DecidableEq

/-- ReminderScheduler._schedule_reminder: remove any job of this reminder,
then add one (replace_existing). -/
def scheduleReminderJob (jobs : List Nat) (rid : Nat) : List Nat :=
  jobs.filter (fun i => !(i == rid)) ++ [rid]

/-- ReminderScheduler._schedule_next_recurring_reminder: creates a successor
record for the occurrence at now + repeat_interval minutes, copying the
recurrence fields, with a fresh ACTIVE enabled row, and schedules a job for
it. -/
def scheduleNextRecurring (st : SchedulerState) (now : Nat) (r : Reminder) :
    SchedulerState :=
  match r.repeat_interval with
  | none => st
  | some iv =>
    let nid := nextReminderId st.db
    let nr : Reminder :=
      { id := nid
        user_id := r.user_id
        title := r.title
        message := r.message
        reminder_type := r.reminder_type
        status := ReminderStatus.active
        scheduled_time := now + iv * 60
        reminder_time := r.reminder_time
        repeat_days := r.repeat_days
        repeat_interval := r.repeat_interval
        sent_at := none
        sent_count := 0
        failed_at := none
        failed_count := 0
        max_send_count := r.max_send_count
        is_recurring := r.is_recurring
        is_enabled := true
        priority := r.priority
        expires_at := r.expires_at }
    { db := st.db ++ [nr], jobs := scheduleReminderJob st.jobs nid }

/-- ReminderScheduler._send_reminder: skipped when the user cannot be
resolved; on successful delivery the reminder is marked SENT, and when
delivery raises, the exception is caught and the reminder is marked FAILED.
The Bool result records whether delivery was attempted. -/
def sendReminderInner (now : Nat) (userOk deliveryOk : Bool)
    (st : SchedulerState) (r : Reminder) : SchedulerState × Bool :=
  if !userOk then (st, false)
  else if deliveryOk then
    ({ st with db := updateReminder st.db (markAsSent now r) }, true)
  else
    ({ st with db := updateReminder st.db (markAsFailed now r) }, true)

/-- ReminderScheduler._send_reminder_job: re-reads the record, no-op unless
is_active; sends; and afterwards, for a recurring reminder with a truthy
repeat_interval, schedules the next occurrence regardless of the delivery
outcome. -/
def sendReminderJob (st : SchedulerState) (now : Nat) (userOk deliveryOk : Bool)
    (rid : Nat) : SchedulerState × Bool :=
  match getReminder st.db rid with
  | none => (st, false)
  | some r =>
    if !r.isActiveProp then (st, false)
    else
      let step := sendReminderInner now userOk deliveryOk st r
      if r.is_recurring && truthyInterval r.repeat_interval then
        (scheduleNextRecurring step.1 now r, step.2)
      else step

/-! The Celery sweep path, from tasks/reminder_tasks.py. -/

/-- The due filter of check_due_reminders: ACTIVE, enabled, scheduled_time
in the past, not past expires_at, and under max_send_count. -/
def isDue (now : Nat) (r : Reminder) : Bool :=
  r.status == ReminderStatus.active &&
  r.is_enabled &&
  decide (r.scheduled_time ≤ now) &&
  (match r.expires_at with
   | none => true
   | some e => decide (now < e)) &&
  (match r.max_send_count with
   | none => true
   | some m => decide (r.sent_count < m))

/-- Processing of one due reminder inside check_due_reminders: the record is
marked SENT with sent_count incremented, and for a recurring reminder with a
truthy repeat_interval the next occurrence is written into scheduled_time
(sent_at plus the interval) and the status flipped back to ACTIVE.  The
Telegram dispatch is queued asynchronously and its outcome is not consulted
here. -/
def processDueReminder (now : Nat) (r : Reminder) : Reminder :=
  let r1 := { r with
    status := ReminderStatus.sent
    sent_at := some now
    sent_count := r.sent_count + 1 }
  if r.is_recurring && truthyInterval r.repeat_interval then
    match r.repeat_interval with
    | some iv => { r1 with scheduled_time := now + iv * 60, status := ReminderStatus.active }
    | none => r1
  else r1

inductive TaskResult
  | success
  | errorReminderNotFound
  | errorUserNotFound
  | errorSendFailed
deriving DecidableEq

/-- The send_telegram_reminder Celery task: reads the reminder and the user
and attempts the Telegram send; a raised send error is caught and turned
into an error result.  It never modifies the reminder record. -/
def sendTelegramReminder (db : ReminderDB) (userOk deliveryOk : Bool)
    (rid : Nat) : ReminderDB × TaskResult :=
  match getReminder db rid with
  | none => (db, TaskResult.errorReminderNotFound)
  | some _ =>
    if !userOk then (db, TaskResult.errorUserNotFound)
    else if deliveryOk then (db, TaskResult.success)
    else (db, TaskResult.errorSendFailed)

/-- One fire execution of a due reminder on the Celery path:
check_due_reminders marks and commits the record, and the queued
send_telegram_reminder task then attempts delivery. -/
def celeryFireDue (now : Nat) (db : ReminderDB) (userOk deliveryOk : Bool)
    (r : Reminder) : ReminderDB × TaskResult :=
  let db1 := updateReminder db (processDueReminder now r)
  sendTelegramReminder db1 userOk deliveryOk r.id

/-! Concrete fixtures: small states and records used to evaluate the
embedded operations at specific inputs. -/

def emptyTimer : TimerState := { active_sessions := [], db := [], jobs := [] }

/-- Scenario of the spec: a 25-minute FOCUS session of user 1 started at
T0 = 0 seconds. -/
def c1Start : TimerState := (startFocusSession emptyTimer 0 1 25).2

/-- The same session paused at T0 + 10 minutes. -/
def c1Paused : TimerState := (pauseSessionTimer c1Start 600 1).2

/-- The same session resumed at T0 + 15 minutes (a 5 minute pause). -/
def c1Resumed : TimerState := (resumeSessionTimer c1Paused 900 1).2

/-- The cache entry of user 1 in the scenario state c1Paused. -/
def c1Info : SessionInfo :=
  { session_id := 1
    start_time := 0
    duration_minutes := 25
    session_type := FocusSessionType.focus
    sessions_completed := 0 }

/-- The engine state after the focus session of c1Start runs to its
scheduled completion at T0 + 25 minutes. -/
def tC2 : TimerState := completeFocusSession c1Start 1500 1

/-- A recurring INTERVAL reminder (10 minutes) of user 7, ACTIVE and
enabled, with a pending job. -/
def rC3 : Reminder :=
  { id := 1
    user_id := 7
    title := "Stretch"
    message := none
    reminder_type := ReminderType.custom
    status := ReminderStatus.active
    scheduled_time := 1000
    reminder_time := none
    repeat_days := none
    repeat_interval := some 10
    sent_at := none
    sent_count := 0
    failed_at := none
    failed_count := 0
    max_send_count := none
    is_recurring := true
    is_enabled := true
    priority := 1
    expires_at := none }

def stC3 : SchedulerState := { db := [rC3], jobs := [1] }

/-- A one-shot (non-recurring) ACTIVE reminder. -/
def rC3once : Reminder :=
  { rC3 with id := 4, is_recurring := false, repeat_interval := none }

def stC3once : SchedulerState := { db := [rC3once], jobs := [4] }

/-- An ACTIVE focus session of user 1, as stored after a start at time 0. -/
def sC4 : FocusSession :=
  { id := 1
    user_id := 1
    session_type := FocusSessionType.focus
    status := FocusSessionStatus.active
    planned_duration := 25
    actual_duration := none
    paused_duration := 0
    planned_start := 0
    actual_start := some 0
    actual_end := none
    last_pause_start := none
    completion_rate := none
    auto_start_next := true
    updated_at := 0 }

def tC4 : TimerState := { active_sessions := [(1, c1Info)], db := [sC4], jobs := [] }

/-- A session already CANCELLED at time 100. -/
def sC5 : FocusSession :=
  { sC4 with status := FocusSessionStatus.cancelled, actual_end := some 100, updated_at := 100 }

/-- A due INTERVAL reminder whose expiry (at 660 s) is closer than its
10-minute repeat interval. -/
def rC6 : Reminder :=
  { rC3 with id := 2, scheduled_time := 0, expires_at := some 660 }

/-- An already SENT non-recurring reminder. -/
def rC7 : Reminder :=
  { rC3 with
    id := 3
    is_recurring := false
    repeat_interval := none
    status := ReminderStatus.sent
    sent_at := some 1000
    sent_count := 1 }

def stC7 : SchedulerState := { db := [rC7], jobs := [] }

/-- A due non-recurring reminder, not yet sent. -/
def rC8 : Reminder :=
  { rC3 with id := 5, is_recurring := false, repeat_interval := none, scheduled_time := 400 }

/-- A state whose database holds an ACTIVE session of user 1 while the
in-memory cache has no entry for user 1. -/
def tC9 : TimerState := { active_sessions := [], db := [sC4], jobs := [] }

/-- A PAUSED session of user 1, paused at 10 s after an actual start at
0 s, never resumed. -/
def sC10 : FocusSession :=
  { sC4 with status := FocusSessionStatus.paused, last_pause_start := some 10 }

/-! Helper lemmas about list search and the job and cache structures. -/

theorem find?_filter_eq {α : Type} (p q : α → Bool) (l : List α)
    (h : ∀ x, p x = true → q x = true) :
    (l.filter q).find? p = l.find? p := by
  induction l with
  | nil => rfl
  | cons a l ih =>
    by_cases hq : q a = true
    · rw [List.filter_cons_of_pos hq]
      cases hpa : p a with
      | true => simp [List.find?_cons, hpa]
      | false => simp [List.find?_cons, hpa, ih]
    · have hpa : p a = false := by
        cases hpa : p a with
        | true => exact absurd (h a hpa) hq
        | false => rfl
      rw [List.filter_cons_of_neg hq, ih, List.find?_cons, hpa]

theorem find?_append_single_neg {α : Type} (p : α → Bool) (l : List α) (j : α)
    (h : p j = false) :
    (l ++ [j]).find? p = l.find? p := by
  induction l with
  | nil => simp [List.find?, h]
  | cons a l ih => cases hpa : p a <;> simp [List.find?_cons, hpa, ih]

theorem find?_addJob_self (jobs : List Job) (j : Job) :
    (addJob jobs j).find? (fun k => k.jobId == j.jobId) = some j := by
  unfold addJob
  induction jobs with
  | nil => simp [List.find?]
  | cons a l ih =>
    cases h : (a.jobId == j.jobId) with
    | true =>
      rw [List.filter_cons_of_neg (by simp [h])]
      exact ih
    | false =>
      rw [List.filter_cons_of_pos (by simp [h]), List.cons_append, List.find?_cons]
      simp only [h]
      exact ih

theorem find?_addJob_id (jobs : List Job) (i : JobId) (d : Nat) :
    (addJob jobs { jobId := i, runDate := d }).find? (fun k => k.jobId == i)
      = some { jobId := i, runDate := d } :=
  find?_addJob_self jobs { jobId := i, runDate := d }

theorem find?_addJob_other (jobs : List Job) (j : Job) (p : Job → Bool)
    (hj : p j = false) (hp : ∀ k, p k = true → (k.jobId == j.jobId) = false) :
    (addJob jobs j).find? p = jobs.find? p := by
  unfold addJob
  rw [find?_append_single_neg p _ j hj]
  exact find?_filter_eq p _ jobs (fun x hx => by simp [hp x hx])

theorem find?_scheduleProgress (jobs : List Job) (now uid sid dur u s : Nat) :
    (scheduleProgress jobs now uid sid dur).find?
        (fun k => k.jobId == JobId.focusComplete u s)
      = jobs.find? (fun k => k.jobId == JobId.focusComplete u s) := by
  unfold scheduleProgress
  generalize pyRange 5 dur 5 = L
  induction L generalizing jobs with
  | nil => rfl
  | cons i L ih =>
    rw [List.foldl_cons, ih]
    apply find?_addJob_other
    · simp
    · intro k hk
      have : k.jobId = JobId.focusComplete u s := by simpa using hk
      simp [this]

/-! The lifecycle CRUD operations never change a session's type. -/

theorem sessionType_startSessionCrud (now : Nat) (s s2 : FocusSession)
    (h : startSessionCrud now s = some s2) : s2.session_type = s.session_type := by
  unfold startSessionCrud at h
  split at h
  · injection h with h; subst h; rfl
  · exact Option.noConfusion h

theorem sessionType_pauseSessionCrud (now : Nat) (s s2 : FocusSession)
    (h : pauseSessionCrud now s = some s2) : s2.session_type = s.session_type := by
  unfold pauseSessionCrud at h
  split at h
  · injection h with h; subst h; rfl
  · exact Option.noConfusion h

theorem sessionType_resumeSessionCrud (now : Nat) (s s2 : FocusSession)
    (h : resumeSessionCrud now s = some s2) : s2.session_type = s.session_type := by
  unfold resumeSessionCrud at h
  split at h
  · cases hl : s.last_pause_start <;> simp only [hl] at h <;>
      (injection h with h; subst h; rfl)
  · exact Option.noConfusion h

theorem sessionType_completeSessionCrud (now : Nat) (s s2 : FocusSession)
    (h : completeSessionCrud now s = some s2) : s2.session_type = s.session_type := by
  unfold completeSessionCrud at h
  split at h
  · cases hl : s.actual_start <;> simp only [hl] at h <;>
      (injection h with h; subst h; rfl)
  · exact Option.noConfusion h

theorem sessionType_cancelSessionCrud (now : Nat) (s s2 : FocusSession)
    (h : cancelSessionCrud now s = some s2) : s2.session_type = s.session_type := by
  unfold cancelSessionCrud at h
  split at h
  · exact Option.noConfusion h
  · injection h with h; subst h; rfl

/-! Membership through the table and cache primitives. -/

theorem mem_updateSession (db : FocusDB) (s x : FocusSession)
    (hx : x ∈ updateSession db s) : x = s ∨ x ∈ db := by
  unfold updateSession at hx
  rcases List.mem_map.mp hx with ⟨y, hy, hxy⟩
  by_cases h : (y.id == s.id) = true
  · rw [if_pos h] at hxy
    exact Or.inl hxy.symm
  · rw [if_neg h] at hxy
    exact Or.inr (hxy ▸ hy)

theorem mem_of_getSessionById (db : FocusDB) (i : Nat) (s : FocusSession)
    (h : getSessionById db i = some s) : s ∈ db :=
  List.mem_of_find?_eq_some h

theorem mem_cacheSet (c : List (Nat × SessionInfo)) (uid : Nat)
    (info : SessionInfo) (p : Nat × SessionInfo) (hp : p ∈ cacheSet c uid info) :
    p ∈ c ∨ p = (uid, info) := by
  unfold cacheSet at hp
  rcases List.mem_append.mp hp with h | h
  · exact Or.inl (List.mem_of_mem_filter h)
  · exact Or.inr (List.mem_singleton.mp h)

theorem mem_cacheDel (c : List (Nat × SessionInfo)) (uid : Nat)
    (p : Nat × SessionInfo) (hp : p ∈ cacheDel c uid) : p ∈ c :=
  List.mem_of_mem_filter hp

theorem cacheDel_cacheSet (c : List (Nat × SessionInfo)) (uid : Nat)
    (info : SessionInfo) : cacheDel (cacheSet c uid info) uid = cacheDel c uid := by
  simp [cacheDel, cacheSet, List.filter_append, List.filter_filter]

theorem cacheLookup_mem (c : List (Nat × SessionInfo)) (uid : Nat)
    (info : SessionInfo) (h : cacheLookup c uid = some info) :
    ∃ p, p ∈ c ∧ p.2 = info := by
  unfold cacheLookup at h
  cases hf : c.find? (fun p => p.1 == uid) with
  | none => rw [hf] at h; exact Option.noConfusion h
  | some p =>
    rw [hf] at h
    refine ⟨p, List.mem_of_find?_eq_some hf, ?_⟩
    injection h

theorem noLongBreak_updateSession (db : FocusDB) (s : FocusSession)
    (h2 : ∀ x ∈ db, x.session_type ≠ FocusSessionType.long_break)
    (hs : s.session_type ≠ FocusSessionType.long_break) :
    ∀ x ∈ updateSession db s, x.session_type ≠ FocusSessionType.long_break := by
  intro x hx
  rcases mem_updateSession db s x hx with h | h
  · exact h ▸ hs
  · exact h2 x h

/-! Preservation of the two structural invariants by each engine
operation. -/

theorem inv_startFocusSession (t : TimerState) (now uid dur : Nat)
    (h1 : cacheCountersZero t) (h2 : noLongBreak t) :
    cacheCountersZero (startFocusSession t now uid dur).2 ∧
      noLongBreak (startFocusSession t now uid dur).2 := by
  unfold startFocusSession
  cases hact : getActiveSession t.db uid with
  | some s => exact ⟨h1, h2⟩
  | none =>
    simp only [startSessionCrud, createFocusSession, if_pos]
    constructor
    · intro p hp
      rcases mem_cacheSet _ _ _ _ hp with h | h
      · exact h1 p h
      · rw [h]
    · intro x hx
      rcases mem_updateSession _ _ x hx with h | h
      · rw [h]; exact (by decide : FocusSessionType.focus ≠ FocusSessionType.long_break)
      · rcases List.mem_append.mp h with h | h
        · exact h2 x h
        · rw [List.mem_singleton.mp h]
          exact (by decide : FocusSessionType.focus ≠ FocusSessionType.long_break)

theorem inv_pauseSessionTimer (t : TimerState) (now uid : Nat)
    (h1 : cacheCountersZero t) (h2 : noLongBreak t) :
    cacheCountersZero (pauseSessionTimer t now uid).2 ∧
      noLongBreak (pauseSessionTimer t now uid).2 := by
  cases hc : cacheLookup t.active_sessions uid with
  | none => simp only [pauseSessionTimer, hc]; exact ⟨h1, h2⟩
  | some info =>
    cases hb : (getSessionById t.db info.session_id).bind (pauseSessionCrud now) with
    | none => simp only [pauseSessionTimer, hc, hb]; exact ⟨h1, h2⟩
    | some s =>
      simp only [pauseSessionTimer, hc, hb]
      obtain ⟨s0, hget, hcrud⟩ := Option.bind_eq_some.mp hb
      refine ⟨h1, noLongBreak_updateSession t.db s h2 ?_⟩
      rw [sessionType_pauseSessionCrud now s0 s hcrud]
      exact h2 s0 (mem_of_getSessionById t.db info.session_id s0 hget)

theorem inv_resumeSessionTimer (t : TimerState) (now uid : Nat)
    (h1 : cacheCountersZero t) (h2 : noLongBreak t) :
    cacheCountersZero (resumeSessionTimer t now uid).2 ∧
      noLongBreak (resumeSessionTimer t now uid).2 := by
  cases hc : cacheLookup t.active_sessions uid with
  | none => simp only [resumeSessionTimer, hc]; exact ⟨h1, h2⟩
  | some info =>
    cases hb : (getSessionById t.db info.session_id).bind (resumeSessionCrud now) with
    | none => simp only [resumeSessionTimer, hc, hb]; exact ⟨h1, h2⟩
    | some s =>
      simp only [resumeSessionTimer, hc, hb]
      obtain ⟨s0, hget, hcrud⟩ := Option.bind_eq_some.mp hb
      refine ⟨h1, noLongBreak_updateSession t.db s h2 ?_⟩
      rw [sessionType_resumeSessionCrud now s0 s hcrud]
      exact h2 s0 (mem_of_getSessionById t.db info.session_id s0 hget)

theorem inv_cancelSessionTimer (t : TimerState) (now uid : Nat)
    (h1 : cacheCountersZero t) (h2 : noLongBreak t) :
    cacheCountersZero (cancelSessionTimer t now uid).2 ∧
      noLongBreak (cancelSessionTimer t now uid).2 := by
  cases hc : cacheLookup t.active_sessions uid with
  | none => simp only [cancelSessionTimer, hc]; exact ⟨h1, h2⟩
  | some info =>
    cases hb : (getSessionById t.db info.session_id).bind (cancelSessionCrud now) with
    | none => simp only [cancelSessionTimer, hc, hb]; exact ⟨h1, h2⟩
    | some s =>
      simp only [cancelSessionTimer, hc, hb]
      obtain ⟨s0, hget, hcrud⟩ := Option.bind_eq_some.mp hb
      constructor
      · intro p hp
        exact h1 p (mem_cacheDel _ _ _ hp)
      · apply noLongBreak_updateSession t.db s h2
        rw [sessionType_cancelSessionCrud now s0 s hcrud]
        exact h2 s0 (mem_of_getSessionById t.db info.session_id s0 hget)

theorem inv_completeBreakSession (t : TimerState) (now uid : Nat)
    (h1 : cacheCountersZero t) (h2 : noLongBreak t) :
    cacheCountersZero (completeBreakSession t now uid) ∧
      noLongBreak (completeBreakSession t now uid) := by
  cases hc : cacheLookup t.active_sessions uid with
  | none => simp only [completeBreakSession, hc]; exact ⟨h1, h2⟩
  | some info =>
    cases hb : (getSessionById t.db info.session_id).bind (completeSessionCrud now) with
    | none => simp only [completeBreakSession, hc, hb]; exact ⟨h1, h2⟩
    | some s =>
      simp only [completeBreakSession, hc, hb]
      obtain ⟨s0, hget, hcrud⟩ := Option.bind_eq_some.mp hb
      constructor
      · intro p hp
        exact h1 p (mem_cacheDel _ _ _ hp)
      · apply noLongBreak_updateSession t.db s h2
        rw [sessionType_completeSessionCrud now s0 s hcrud]
        exact h2 s0 (mem_of_getSessionById t.db info.session_id s0 hget)

theorem inv_completeFocusSession (t : TimerState) (now uid : Nat)
    (h1 : cacheCountersZero t) (h2 : noLongBreak t) :
    cacheCountersZero (completeFocusSession t now uid) ∧
      noLongBreak (completeFocusSession t now uid) := by
  cases hc : cacheLookup t.active_sessions uid with
  | none => simp only [completeFocusSession, hc]; exact ⟨h1, h2⟩
  | some info =>
    cases hb : (getSessionById t.db info.session_id).bind (completeSessionCrud now) with
    | none => simp only [completeFocusSession, hc, hb]; exact ⟨h1, h2⟩
    | some s =>
      simp only [completeFocusSession, hc, hb]
      obtain ⟨s0, hget, hcrud⟩ := Option.bind_eq_some.mp hb
      obtain ⟨p, hpmem, hp2⟩ := cacheLookup_mem _ _ _ hc
      have hz : info.sessions_completed = 0 := hp2 ▸ h1 p hpmem
      have hmod :
          ¬(info.sessions_completed + 1) % sessionsBeforeLongBreak = 0 := by
        rw [hz]; decide
      simp only [hz, sessionsBeforeLongBreak] at hmod ⊢
      rw [if_neg hmod]
      simp only [startBreak, startSessionCrud, createFocusSession, if_pos]
      constructor
      · intro q hq
        rw [cacheDel_cacheSet, cacheDel_cacheSet] at hq
        exact h1 q (mem_cacheDel _ _ _ hq)
      · intro x hx
        rcases mem_updateSession _ _ x hx with h | h
        · rw [h]
          exact (by decide : FocusSessionType.short_break ≠ FocusSessionType.long_break)
        · rcases List.mem_append.mp h with h | h
          · apply noLongBreak_updateSession t.db s h2 ?_ x h
            rw [sessionType_completeSessionCrud now s0 s hcrud]
            exact h2 s0 (mem_of_getSessionById t.db info.session_id s0 hget)
          · rw [List.mem_singleton.mp h]
            exact (by decide : FocusSessionType.short_break ≠ FocusSessionType.long_break)

/-- Every reachable engine state satisfies both invariants. -/
theorem reachable_inv (t : TimerState) (h : Reachable t) :
    cacheCountersZero t ∧ noLongBreak t := by
  induction h with
  | init =>
    constructor
    · intro p hp; exact absurd hp (List.not_mem_nil p)
    · intro s hs; exact absurd hs (List.not_mem_nil s)
  | start t now uid dur h ih => exact inv_startFocusSession t now uid dur ih.1 ih.2
  | pause t now uid h ih => exact inv_pauseSessionTimer t now uid ih.1 ih.2
  | resume t now uid h ih => exact inv_resumeSessionTimer t now uid ih.1 ih.2
  | cancel t now uid h ih => exact inv_cancelSessionTimer t now uid ih.1 ih.2
  | completeFocus t now uid h ih => exact inv_completeFocusSession t now uid ih.1 ih.2
  | completeBreak t now uid h ih => exact inv_completeBreakSession t now uid ih.1 ih.2

/-! Claim C1: resume and the rescheduled completion job. -/

/-- C1 (amended): when resume_session succeeds for a cached session, the
completion job is rescheduled for max(0, duration_minutes - wall-clock
minutes elapsed since the cached start_time) minutes after the resume
instant - elapsed time counted on the wall clock, including paused time,
not excluding it. -/
theorem claim_C1 (t : TimerState) (now uid : Nat) (info : SessionInfo)
    (h1 : cacheLookup t.active_sessions uid = some info)
    (h2 : ((getSessionById t.db info.session_id).bind (resumeSessionCrud now)).isSome = true)
    (h3 : 0 < info.duration_minutes - (now - info.start_time) / 60) :
    (resumeSessionTimer t now uid).1 = true ∧
    getJobDate (resumeSessionTimer t now uid).2 (JobId.focusComplete uid info.session_id)
      = some (now + (info.duration_minutes - (now - info.start_time) / 60) * 60) := by
  cases hb : (getSessionById t.db info.session_id).bind (resumeSessionCrud now) with
  | none => rw [hb] at h2; exact absurd h2 (by simp)
  | some s =>
    constructor
    · simp only [resumeSessionTimer, h1, hb]
    · simp only [resumeSessionTimer, h1, hb, getJobDate]
      rw [if_pos h3, find?_scheduleProgress, find?_addJob_id]
      rfl

/-- C1 witness: the scenario of the spec (start at 0 s, pause at 600 s,
resume at 900 s, 25 planned minutes) reschedules completion for
10 minutes out, at 1500 s. -/
theorem claim_C1_witness :
    (resumeSessionTimer c1Paused 900 1).1 = true ∧
    getJobDate (resumeSessionTimer c1Paused 900 1).2 (JobId.focusComplete 1 1)
      = some 1500 :=
  claim_C1 c1Paused 900 1 c1Info (by decide) (by decide) (by decide)

/-- C1 counterexample: in the exact scenario of the claim (FOCUS session of
25 minutes started at T0 = 0, paused at T0 + 10 min for 5 min, resumed)
the completion job is scheduled at 1500 s = T0 + 25 min, not at
1800 s = T0 + 30 min as the claim states. -/
theorem claim_C1_counterexample :
    getJobDate c1Resumed (JobId.focusComplete 1 1) = some 1500 ∧
    (1500 : Nat) ≠ 1800 := by
  exact ⟨by decide, by decide⟩

/-! Claim C2: the auto-started break after a completed FOCUS session. -/

/-- C2: in every reachable state of the focus engine the sessions table
contains no LONG_BREAK session at all: every writer of the active-session
cache initialises sessions_completed to 0 and the entry is deleted on
completion, so the counter equals 1 at the modulo test of
_complete_focus_session and the LONG_BREAK branch is unreachable. -/
theorem claim_C2 (t : TimerState) (h : Reachable t) : noLongBreakBool t = true := by
  have h2 := (reachable_inv t h).2
  unfold noLongBreakBool
  rw [List.all_eq_true]
  intro s hs
  simpa using h2 s hs

/-- C2 witness: after starting and completing a focus session the table
holds the completed FOCUS session and the auto-started break, and no
LONG_BREAK. -/
theorem claim_C2_witness : noLongBreakBool tC2 = true :=
  claim_C2 tC2 (Reachable.completeFocus c1Start 1500 1
    (Reachable.start emptyTimer 0 1 25 Reachable.init))

/-! Claim C3: permanent dispatch failure of a reminder. -/

/-- C3 (amended): for a non-recurring reminder (or one without a truthy
repeat_interval), a fire whose delivery raises marks the reminder FAILED
and nothing else happens: no successor record, job list unchanged. -/
theorem claim_C3 (st : SchedulerState) (now rid : Nat) (r : Reminder)
    (hget : getReminder st.db rid = some r)
    (hact : r.isActiveProp = true)
    (hnr : (r.is_recurring && truthyInterval r.repeat_interval) = false) :
    sendReminderJob st now true false rid
      = ({ st with db := updateReminder st.db (markAsFailed now r) }, true) := by
  simp only [sendReminderJob, hget, hact, hnr, sendReminderInner]
  simp

/-- C3 witness: a concrete one-shot ACTIVE reminder whose delivery fails
is marked FAILED in place and neither the table length nor the job list
changes. -/
theorem claim_C3_witness :
    sendReminderJob stC3once 2000 true false 4
      = ({ stC3once with db := updateReminder stC3once.db (markAsFailed 2000 rC3once) }, true) :=
  claim_C3 stC3once 2000 4 rC3once (by decide) (by decide) (by decide)

/-- C3 counterexample: a recurring 10-minute reminder whose delivery
raises is marked FAILED, yet _send_reminder_job still creates and
schedules the successor occurrence: the table grows to two records, the
successor is ACTIVE at 1600 s, and its job is added. -/
theorem claim_C3_counterexample :
    (getReminder (sendReminderJob stC3 1000 true false 1).1.db 1).map Reminder.status
      = some ReminderStatus.failed ∧
    (sendReminderJob stC3 1000 true false 1).1.db.length = 2 ∧
    (getReminder (sendReminderJob stC3 1000 true false 1).1.db 2).map Reminder.status
      = some ReminderStatus.active ∧
    (getReminder (sendReminderJob stC3 1000 true false 1).1.db 2).map Reminder.scheduled_time
      = some 1600 ∧
    (sendReminderJob stC3 1000 true false 1).1.jobs = [1, 2] := by
  refine ⟨by decide, by decide, by decide, by decide, by decide⟩

/-! Claim C4: starting while an ACTIVE or PAUSED session exists. -/

/-- C4 (amended): when the user already has an ACTIVE or PAUSED session,
start_focus_session returns that existing session as a normal result and
leaves the whole state unchanged; no error is raised and no new record is
created (the code has no ConflictError). -/
theorem claim_C4 (t : TimerState) (now uid dur : Nat) (s : FocusSession)
    (h : getActiveSession t.db uid = some s) :
    startFocusSession t now uid dur = (some s, t) := by
  simp only [startFocusSession, h]

/-- C4 witness: starting for user 1, who has the ACTIVE session sC4,
returns sC4 and changes nothing. -/
theorem claim_C4_witness : startFocusSession tC4 5 1 25 = (some sC4, tC4) :=
  claim_C4 tC4 5 1 25 sC4 (by decide)

/-- C4 counterexample: with an ACTIVE session present the start call does
not fail: it returns the existing session (a non-error result) and leaves
the table without a new record. -/
theorem claim_C4_counterexample :
    (startFocusSession tC4 5 1 25).1 = some sC4 ∧
    (startFocusSession tC4 5 1 25).2 = tC4 ∧
    some sC4 ≠ (none : Option FocusSession) := by
  refine ⟨by decide, by decide, by decide⟩

/-! Claim C5: terminality of CANCELLED. -/

/-- C5 (amended): on a CANCELLED session, start, pause, resume and
complete are all refused without touching the record, and the status can
never leave CANCELLED; but cancel_session is accepted again (it only
refuses COMPLETED sessions) and overwrites actual_end and updated_at with
the current time. -/
theorem claim_C5 (now : Nat) (s : FocusSession)
    (hs : s.status = FocusSessionStatus.cancelled) :
    startSessionCrud now s = none ∧
    pauseSessionCrud now s = none ∧
    resumeSessionCrud now s = none ∧
    completeSessionCrud now s = none ∧
    cancelSessionCrud now s
      = some { s with
          status := FocusSessionStatus.cancelled
          actual_end := some now
          updated_at := now } := by
  refine ⟨?_, ?_, ?_, ?_, ?_⟩ <;>
    simp [startSessionCrud, pauseSessionCrud, resumeSessionCrud, completeSessionCrud,
      cancelSessionCrud, hs]

/-- C5 witness: the concrete CANCELLED session sC5 at time 200. -/
theorem claim_C5_witness :
    startSessionCrud 200 sC5 = none ∧
    pauseSessionCrud 200 sC5 = none ∧
    resumeSessionCrud 200 sC5 = none ∧
    completeSessionCrud 200 sC5 = none ∧
    cancelSessionCrud 200 sC5
      = some { sC5 with
          status := FocusSessionStatus.cancelled
          actual_end := some 200
          updated_at := 200 } :=
  claim_C5 200 sC5 (by decide)

/-- C5 counterexample: cancelling the already CANCELLED session sC5 (whose
actual_end is 100) is accepted and overwrites actual_end with 200, so not
every subsequent lifecycle operation leaves the record unchanged. -/
theorem claim_C5_counterexample :
    sC5.status = FocusSessionStatus.cancelled ∧
    (cancelSessionCrud 200 sC5).map FocusSession.actual_end = some (some 200) ∧
    sC5.actual_end = some 100 ∧
    some (200 : Nat) ≠ some (100 : Nat) := by
  refine ⟨by decide, by decide, by decide, by decide⟩

/-! Claim C6: INTERVAL reminders, sent_count and expiry. -/

/-- C6 (amended): processing a reminder in the due sweep always increments
sent_count by exactly one, and once expires_at is reached the due filter
refuses the reminder, so it never fires past expiry; however the stored
next occurrence (scheduled_time) may be set past expires_at. -/
theorem claim_C6 (now e : Nat) (r : Reminder)
    (he : r.expires_at = some e) (hle : e ≤ now) :
    (processDueReminder now r).sent_count = r.sent_count + 1 ∧
    isDue now r = false := by
  constructor
  · simp only [processDueReminder]
    split
    · cases hiv : r.repeat_interval <;> simp [hiv]
    · rfl
  · simp [isDue, he, Nat.not_lt.mpr hle]

/-- C6 witness: the interval reminder rC6 at its expiry instant 660 s. -/
theorem claim_C6_witness :
    (processDueReminder 660 rC6).sent_count = rC6.sent_count + 1 ∧
    isDue 660 rC6 = false :=
  claim_C6 660 660 rC6 (by decide) (by decide)

/-- C6 counterexample: rC6 is due at 600 s (its expiry is 660 s), and the
sweep writes a next occurrence at 1200 s, later than expires_at: the claim
that no next occurrence is ever scheduled past expires_at is false. -/
theorem claim_C6_counterexample :
    isDue 600 rC6 = true ∧
    rC6.expires_at = some 660 ∧
    (processDueReminder 600 rC6).scheduled_time = 1200 ∧
    ¬(1200 : Nat) ≤ 660 := by
  refine ⟨by decide, by decide, by decide, by decide⟩

/-! Claim C7: idempotence of firing an already SENT reminder. -/

/-- C7: a second fire of a non-recurring reminder whose status is SENT has
no side effect: the state is returned unchanged and no delivery is
attempted, because is_active re-read at fire time is false. -/
theorem claim_C7 (st : SchedulerState) (now rid : Nat) (userOk deliveryOk : Bool)
    (r : Reminder)
    (hget : getReminder st.db rid = some r)
    (hs : r.status = ReminderStatus.sent)
    (hnr : r.is_recurring = false) :
    sendReminderJob st now userOk deliveryOk rid = (st, false) := by
  have hact : r.isActiveProp = false := by
    simp [Reminder.isActiveProp, hs]
  simp [sendReminderJob, hget, hact]

/-- C7 witness: firing the SENT reminder rC7 again changes nothing and
dispatches nothing. -/
theorem claim_C7_witness : sendReminderJob stC7 2000 true true 3 = (stC7, false) :=
  claim_C7 stC7 2000 3 true true rC7 (by decide) (by decide) (by decide)

/-! Claim C8: a reminder marked SENT despite failed delivery. -/

/-- C8: there is a fire execution on the Celery sweep path in which the
reminder is marked SENT - status SENT, sent_at set, sent_count incremented
- even though the queued Telegram delivery fails: check_due_reminders
marks the record without consulting the delivery outcome. -/
theorem claim_C8 :
    isDue 500 rC8 = true ∧
    (celeryFireDue 500 [rC8] true false rC8).2 = TaskResult.errorSendFailed ∧
    (getReminder (celeryFireDue 500 [rC8] true false rC8).1 rC8.id).map Reminder.status
      = some ReminderStatus.sent ∧
    (getReminder (celeryFireDue 500 [rC8] true false rC8).1 rC8.id).map Reminder.sent_count
      = some (rC8.sent_count + 1) ∧
    (getReminder (celeryFireDue 500 [rC8] true false rC8).1 rC8.id).map Reminder.sent_at
      = some (some 500) := by
  refine ⟨by decide, by decide, by decide, by decide, by decide⟩

/-! Claim C9: cache-gated timer operations. -/

/-- C9: when the user id has no entry in the in-memory active-session
cache, pause_session, resume_session and cancel_session all return False
and leave the whole state - including the persisted session records -
untouched, whatever the database contains. -/
theorem claim_C9 (t : TimerState) (now uid : Nat)
    (h : cacheLookup t.active_sessions uid = none) :
    pauseSessionTimer t now uid = (false, t) ∧
    resumeSessionTimer t now uid = (false, t) ∧
    cancelSessionTimer t now uid = (false, t) := by
  refine ⟨?_, ?_, ?_⟩ <;>
    simp only [pauseSessionTimer, resumeSessionTimer, cancelSessionTimer, h]

/-- C9 witness: tC9 stores an ACTIVE session of user 1 in the database
while the cache has no entry for user 1; all three operations return False
with the state unchanged. -/
theorem claim_C9_witness :
    getActiveSession tC9.db 1 = some sC4 ∧
    (pauseSessionTimer tC9 50 1 = (false, tC9) ∧
     resumeSessionTimer tC9 50 1 = (false, tC9) ∧
     cancelSessionTimer tC9 50 1 = (false, tC9)) :=
  ⟨by decide, claim_C9 tC9 50 1 (by decide)⟩

/-! Claim C10: completing from PAUSED and the duration arithmetic. -/

/-- C10 (amended): completing a PAUSED session leaves paused_duration and
the non-null last_pause_start untouched and sets actual_duration to the
whole-minute wall-clock span from actual_start to actual_end (pauses
included); effective_duration_minutes then equals actual_duration minus
paused_duration whenever actual_duration is nonzero, but falls back to
planned_duration when the computed actual_duration is 0. -/
theorem claim_C10 (now st lp : Nat) (s : FocusSession)
    (hp : s.status = FocusSessionStatus.paused)
    (hst : s.actual_start = some st)
    (hlp : s.last_pause_start = some lp)
    (hne : (now - st) / 60 ≠ 0) :
    (completeSessionCrud now s).map (fun x => x.paused_duration)
      = some s.paused_duration ∧
    (completeSessionCrud now s).map (fun x => x.last_pause_start)
      = some (some lp) ∧
    (completeSessionCrud now s).map (fun x => x.actual_duration)
      = some (some ((now - st) / 60)) ∧
    (completeSessionCrud now s).map effectiveDurationMinutes
      = some ((((now - st) / 60 : Nat) : Int) - (s.paused_duration : Int)) := by
  unfold completeSessionCrud
  rw [if_pos (Or.inr hp)]
  simp only [hst]
  refine ⟨rfl, by simp [hlp], rfl, ?_⟩
  simp [effectiveDurationMinutes, hne]

/-- C10 witness: completing the paused session sC10 (started at 0 s,
paused at 10 s, paused_duration 0) at 120 s gives actual_duration 2 - the
full wall-clock span including the pause - keeps last_pause_start at 10,
and the effective duration is 2 - 0. -/
theorem claim_C10_witness :
    (completeSessionCrud 120 sC10).map (fun x => x.paused_duration) = some 0 ∧
    (completeSessionCrud 120 sC10).map (fun x => x.last_pause_start)
      = some (some 10) ∧
    (completeSessionCrud 120 sC10).map (fun x => x.actual_duration)
      = some (some 2) ∧
    (completeSessionCrud 120 sC10).map effectiveDurationMinutes = some 2 :=
  claim_C10 120 0 10 sC10 (by decide) (by decide) (by decide) (by decide)

/-- C10 counterexample: completing the paused session sC10 after only
30 s yields actual_duration 0, and effective_duration_minutes is then the
planned 25 minutes, not actual_duration minus paused_duration = 0. -/
theorem claim_C10_counterexample :
    (completeSessionCrud 30 sC10).map FocusSession.actual_duration = some (some 0) ∧
    (completeSessionCrud 30 sC10).map (fun s => s.paused_duration) = some 0 ∧
    (completeSessionCrud 30 sC10).map effectiveDurationMinutes = some 25 ∧
    (25 : Int) ≠ 0 - 0 := by
  refine ⟨by decide, by decide, by decide, by decide⟩

end DetoxBuddy
